import Mathlib

/-!
Shallow embedding of the microservice benchmark harness
(`sdk/mx.sdk/mx_sdk_benchmark.py`) and proofs about it.

Conventions of the embedding:
* machine time is counted explicitly: port-wait results carry the number of
  seconds slept and the number of process-table scans performed; the readiness
  probe carries the milliseconds slept;
* the OS process table is a function from elapsed whole seconds to the list of
  live processes (the table may change while a poll loop sleeps);
* `mx.abort` is modelled as an `Except.error` carrying the abort message;
* side effects (running commands, sending signals, starting threads) are
  modelled as explicit action traces.
-/

namespace MxSdkBenchmark

/-- Model of an OS process as seen by `psutil.process_iter()`: a pid and the
local ports of its inet connections. `conns = none` models
`proc.connections(...)` raising (the `except: pass` branch skips the process). -/
structure Proc where
  pid : Nat
  conns : Option (List Nat)
deriving DecidableEq, Repr

/-- Inner double loop of `waitForPort`: the first process whose connection list
is readable and contains a local address with the given port. -/
def scanForPort (procs : List Proc) (port : Nat) : Option Proc :=
  procs.find? (fun p =>
    match p.conns with
    | some l => l.contains port
    | none => false)

/-- Result of `waitForPort`, with explicit accounting of seconds slept
(`time.sleep(1)` calls) and process-table scans performed. -/
structure PortWait where
  result : Option Proc
  slept : Nat
  scans : Nat
deriving DecidableEq, Repr

/-- Loop body of `BaseMicroserviceBenchmarkSuite.waitForPort`: the Python
`for _ in range(timeout + 1)` loop. Each iteration scans the process table
(at the current elapsed second) and, when the port is not found, sleeps one
second before the next iteration — note the sleep also runs on the last
iteration, before `return None`. -/
def waitForPortLoop (table : Nat → List Proc) (port : Nat) :
    Nat → Nat → Nat → PortWait
  | 0, slept, scans => ⟨none, slept, scans⟩
  | n + 1, slept, scans =>
    match scanForPort (table slept) port with
    | some p => ⟨some p, slept, scans + 1⟩
    | none => waitForPortLoop table port n (slept + 1) (scans + 1)

/-- `BaseMicroserviceBenchmarkSuite.waitForPort(port, timeout)`. The Python
default for `timeout` is 10; callers here always pass it explicitly. -/
def waitForPort (table : Nat → List Proc) (port : Nat) (timeout : Nat) :
    PortWait :=
  waitForPortLoop table port (timeout + 1) 0 0

/-- Numeric value of `signal.SIGTERM`. -/
def SIGTERM : Nat := 15

/-- Observable side effects of the process-lifecycle controller. The model has
no wait-for-exit action: `proc.send_signal` is fire-and-forget in the source. -/
inductive TermAction where
  | sendSignal (pid : Nat) (sig : Nat)
deriving DecidableEq, Repr

/-- `BaseMicroserviceBenchmarkSuite.terminateApplication(port)`: calls
`waitForPort(port, 0)` on the current process table; when a process is found it
sends it SIGTERM and returns `True`, otherwise it returns `False`. The returned
triple is (result, signal actions, seconds slept inside the port wait). -/
def terminateApplication (table : List Proc) (port : Nat) :
    Bool × List TermAction × Nat :=
  match waitForPort (fun _ => table) port 0 with
  | ⟨some p, slept, _⟩ => (true, [TermAction.sendSignal p.pid SIGTERM], slept)
  | ⟨none, slept, _⟩ => (false, [], slept)

/-- Abort message issued when the initial port wait of `runTesterInBackground`
never finds the server. -/
def serverNotFoundMsg : String :=
  "Failed to find server application in BaseMicroserviceBenchmarkSuite"

/-- Abort message for the termination-failure path of `runTesterInBackground`. -/
def terminationFailureMsg : String :=
  "Failed to terminate server application in BaseMicroserviceBenchmarkSuite"

/-- Outcome of the tester background thread. -/
inductive BgOutcome where
  | aborted (msg : String)
  | completed
deriving DecidableEq, Repr

/-- `BaseMicroserviceBenchmarkSuite.runTesterInBackground`: wait (timeout 10)
for the service port, abort when it never appears; run the tester (an external
invocation whose output does not affect this trace); then terminate the
application and abort when termination reports failure. `tableStart` is the
process table during the initial port wait, `tableEnd` the table when
`terminateApplication` runs after the tester. -/
def runTesterInBackground (tableStart : Nat → List Proc)
    (tableEnd : List Proc) (port : Nat) : BgOutcome × List TermAction :=
  if (waitForPort tableStart port 10).result.isSome then
    match terminateApplication tableEnd port with
    | (true, acts, _) => (BgOutcome.completed, acts)
    | (false, _, _) => (BgOutcome.aborted terminationFailureMsg, [])
  else (BgOutcome.aborted serverNotFoundMsg, [])

/-- Boolean infix test on character lists; `listIsInfixOf pat l` is the
Python substring test `pat in l` specialised to strings. -/
def listIsInfixOf : List Char → List Char → Bool
  | pat, [] => pat.isEmpty
  | pat, a :: as => pat.isPrefixOf (a :: as) || listIsInfixOf pat as

/-- Python's `needle in haystack` on strings (substring containment). -/
def pyIn (needle hay : String) : Bool :=
  listIsInfixOf needle.toList hay.toList

/-- Python's `str.split(sep)` for a one-character separator, on the character
list of the string. Mirrors CPython: `"".split('-') = [""]`,
`"a-".split('-') = ["a", ""]`. -/
def splitOnChar (c : Char) : List Char → List (List Char)
  | [] => [[]]
  | x :: xs =>
    if x = c then [] :: splitOnChar c xs
    else
      match splitOnChar c xs with
      | [] => [[x]]
      | y :: ys => (x :: y) :: ys

/-- `BaseMicroserviceBenchmarkSuite.benchMicroserviceName`: abort when
`suiteName.split('-')` has fewer than two elements, otherwise return
`suiteName.split('-')[0]`. -/
def benchMicroserviceName (suiteName : String) : Except String String :=
  if (splitOnChar '-' suiteName.toList).length < 2 then
    Except.error ("Invalid benchmark suite name: " ++ suiteName)
  else
    Except.ok (String.mk ((splitOnChar '-' suiteName.toList).headD []))

/-- Observable actions of `run_stage`: running a command synchronously on the
primary path, starting the tester background thread, and starting the
first-response probe thread. -/
inductive StageAction where
  | runCommand (cmd : List String)
  | startTester
  | startProbe
deriving DecidableEq, Repr

/-- `BaseMicroserviceBenchmarkSuite.run_stage(stage, server_command, ...)`:
stages whose name contains "image" just run the given command (the mixin
`run_stage` is a plain `mx.run`); other stages start the tester thread, then —
when the stage name contains "agent" — call `timeToFirstResponse`, which
starts the probe thread only when the microservice name occurs in
`''.join(cmd)` (and aborts when the suite name is invalid), and finally run
the server command synchronously. -/
def run_stage (suiteName stage : String) (cmd : List String) :
    Except String (List StageAction) :=
  if pyIn "image" stage then
    Except.ok [StageAction.runCommand cmd]
  else
    if pyIn "agent" stage then
      match benchMicroserviceName suiteName with
      | Except.error e => Except.error e
      | Except.ok name =>
        if pyIn name (String.join cmd) then
          Except.ok [StageAction.startTester, StageAction.startProbe,
            StageAction.runCommand cmd]
        else
          Except.ok [StageAction.startTester, StageAction.runCommand cmd]
    else
      Except.ok [StageAction.startTester, StageAction.runCommand cmd]

/-- Value held by the `testerOutput` attribute: either the plain string set in
`__init__` or the `mx.TeeOutputCapture(mx.OutputCapture())` object (here
reduced to its captured data) assigned by `runTester`. -/
inductive TesterOutputField where
  | initStr (s : String)
  | capture (data : String)
deriving DecidableEq, Repr

/-- Python runtime error raised by attribute access on the wrong type. -/
inductive PyError where
  | attributeError
deriving DecidableEq, Repr

/-- Evaluation of `self.testerOutput.underlying.data`: a plain `str` has no
attribute `underlying`, so the access raises `AttributeError`; a capture
object yields its captured data. -/
def underlyingData : TesterOutputField → Except PyError String
  | TesterOutputField.initStr _ => Except.error PyError.attributeError
  | TesterOutputField.capture d => Except.ok d

/-- Mutable suite attributes relevant to output assembly, as set in
`BaseMicroserviceBenchmarkSuite.__init__` and updated by the probe thread and
by `runTester`. -/
structure SuiteState where
  testerOutput : TesterOutputField
  timeToFirstResponseOutput : String
deriving DecidableEq, Repr

/-- Attribute values after `BaseMicroserviceBenchmarkSuite.__init__`:
`self.testerOutput = ''` and `self.timeToFirstResponseOutput = ''`. -/
def initSuiteState : SuiteState :=
  { testerOutput := TesterOutputField.initStr ""
    timeToFirstResponseOutput := "" }

/-- `BaseMicroserviceBenchmarkSuite.runAndReturnStdOut`: the returned text is
`self.testerOutput.underlying.data + self.timeToFirstResponseOutput +
applicationOutput`; `retCode` and `appOutput` come from the superclass call. -/
def runAndReturnStdOut (st : SuiteState) (retCode : Int) (appOutput : String) :
    Except PyError (Int × String) :=
  match underlyingData st.testerOutput with
  | Except.error e => Except.error e
  | Except.ok d =>
    Except.ok (retCode, d ++ st.timeToFirstResponseOutput ++ appOutput)

/-- Effect of `runTester` (JMeter or Wrk variant) on the suite attributes:
`self.testerOutput = mx.TeeOutputCapture(mx.OutputCapture())`, subsequently
filled with the tester's combined output. -/
def runTesterSetOutput (st : SuiteState) (captured : String) : SuiteState :=
  { st with testerOutput := TesterOutputField.capture captured }

/-- Effect of one stage on the suite attributes: build stages (name contains
"image") run no tester; run stages execute `runTester`, which replaces
`testerOutput` with a capture holding that stage's tester output. -/
def stageStateEffect (st : SuiteState) (stage : String) (testerData : String) :
    SuiteState :=
  if pyIn "image" stage then st else runTesterSetOutput st testerData

/-- Suite attributes after a list of stages, each paired with the tester
output it would capture. -/
def runStagesState (st : SuiteState) : List (String × String) → SuiteState
  | [] => st
  | (stage, data) :: rest => runStagesState (stageStateEffect st stage data) rest

/-- Outcome of one `urllib().urlopen(url)` attempt in the probe loop: an
`IOError`, or a response with the given status code. -/
inductive ProbeResp where
  | ioError
  | code (n : Nat)
deriving DecidableEq, Repr

/-- Outcome of the probe thread: first successful response (with the published
annotation and the milliseconds slept before it), or exhaustion of the attempt
budget (the `mx.abort` path), again with the milliseconds slept. -/
inductive ProbeOutcome where
  | success ( annotation : String) (sleptMs : Nat)
  | timeout (sleptMs : Nat)
deriving DecidableEq, Repr

/-- Attempt budget of the probe loop: the Python `for _ in range(60*100)`. -/
def probeAttempts : Nat := 60 * 100

/-- One probe-loop iteration per attempt: a response with code 200 succeeds
and formats the elapsed milliseconds since the start timestamp into the
annotation; a response with any other code retries with no sleep; an `IOError`
sleeps 10 ms (`time.sleep(.01)`) and retries. `resp k` is the outcome of
attempt `k` and `elapsedMs k` the clock reading (ms since `startTime`) at
attempt `k`. -/
def probeLoop (resp : Nat → ProbeResp) (elapsedMs : Nat → Nat) :
    Nat → Nat → Nat → ProbeOutcome
  | 0, _, sleptMs => ProbeOutcome.timeout sleptMs
  | n + 1, k, sleptMs =>
    match resp k with
    | ProbeResp.code c =>
      if c = 200 then
        ProbeOutcome.success
          ("First response received in " ++ toString (elapsedMs k) ++ " ms")
          sleptMs
      else probeLoop resp elapsedMs n (k + 1) sleptMs
    | ProbeResp.ioError => probeLoop resp elapsedMs n (k + 1) (sleptMs + 10)

/-- Body of `timeToFirstResponseThread(startTime)`: the bounded probe loop
over the service URL. The float milliseconds of the source are embedded as a
natural-number clock. -/
def timeToFirstResponseThread (resp : Nat → ProbeResp)
    (elapsedMs : Nat → Nat) : ProbeOutcome :=
  probeLoop resp elapsedMs probeAttempts 0 0

/-- `timeToFirstResponse(cmd, bmSuite)`: when the microservice name occurs in
`''.join(cmd)` the probe thread is started — on success it assigns the
annotation to `bmSuite.timeToFirstResponseOutput`, on exhaustion it aborts —
and in every non-aborting case the function returns `cmd` unchanged to the
pipeline. `url` stands for the service URL built from host, port and endpoint. -/
def timeToFirstResponse (microName : String) (cmd : List String)
    (st : SuiteState) (resp : Nat → ProbeResp) (elapsedMs : Nat → Nat)
    (url : String) : Except String (List String × SuiteState) :=
  if pyIn microName (String.join cmd) then
    match timeToFirstResponseThread resp elapsedMs with
    | ProbeOutcome.success ann _ =>
      Except.ok (cmd, { st with timeToFirstResponseOutput := ann })
    | ProbeOutcome.timeout _ =>
      Except.error
        ("Failed measure time to first response. Service not reachable at "
          ++ url)
  else Except.ok (cmd, st)

/-- JSON scalar values as they occur in Wrk workload configurations. -/
inductive JVal where
  | s (v : String)
  | n (v : Int)
deriving DecidableEq, Repr

/-- Workload configuration document: an association list of JSON keys to
scalar values. -/
abbrev Config := List (String × JVal)

/-- Python's `key in config` membership test. -/
def hasKey (cfg : Config) (k : String) : Bool :=
  cfg.any (fun p => p.1 = k)

/-- Python's `config[key]` / `config.get(key, None)` lookup. -/
def getVal (cfg : Config) (k : String) : Option JVal :=
  (cfg.find? (fun p => p.1 = k)).map Prod.snd

/-- Python's `str(v)` on a JSON scalar. -/
def pyStr : JVal → String
  | JVal.s v => v
  | JVal.n v => toString v

/-- Python truthiness of a JSON scalar: the empty string and the number 0 are
falsy, everything else is truthy. -/
def pyTruthy : JVal → Bool
  | JVal.s v => !(v == "")
  | JVal.n v => !(v == 0)

/-- Errors of the Wrk command builders: an `mx.abort` with its message, or an
uncaught `TypeError` from `+` on operands of different JSON types. -/
inductive WrkErr where
  | abort (msg : String)
  | typeError
deriving DecidableEq, Repr

/-- Python's `+` on two JSON scalars, as used for
`config["target-url"] + config["target-path"]`. -/
def pyAdd : JVal → JVal → Except WrkErr JVal
  | JVal.s a, JVal.s b => Except.ok (JVal.s (a ++ b))
  | JVal.n a, JVal.n b => Except.ok (JVal.n (a + b))
  | _, _ => Except.error WrkErr.typeError

namespace BaseWrkBenchmarkSuite

/-- `BaseWrkBenchmarkSuite.setupWrkCmd(config, cmd)`: append `--connections` /
`--threads` when configured, `--script` (with `str(self.getScriptPath(config))`,
passed here as `scriptPath`) when configured, then the target URL (with the
target path appended when configured), aborting when `target-url` is absent.
The source's mutable default argument `cmd=[]` is modelled by the explicit
`cmd` parameter. -/
def setupWrkCmd (scriptPath : String) (cfg : Config) (cmd : List String) :
    Except WrkErr (List String) :=
  let cmd := cmd ++ (match getVal cfg "connections" with
    | some v => ["--connections", pyStr v]
    | none => [])
  let cmd := cmd ++ (match getVal cfg "threads" with
    | some v => ["--threads", pyStr v]
    | none => [])
  let cmd := if hasKey cfg "script" then cmd ++ ["--script", scriptPath]
    else cmd
  match getVal cfg "target-url" with
  | none => Except.error (WrkErr.abort "target-url not specified in Wrk configuration.")
  | some url =>
    match getVal cfg "target-path" with
    | some path =>
      match pyAdd url path with
      | Except.ok v => Except.ok (cmd ++ [pyStr v])
      | Except.error e => Except.error e
    | none => Except.ok (cmd ++ [pyStr url])

/-- Warm-up duration selected by `BaseWrkBenchmarkSuite.runTester`: in
native-image mode only `warmup-duration-native-image` is consulted
(`config.get(..., None)`), otherwise only `warmup-duration`. -/
def warmupDurationOf (native : Bool) (cfg : Config) : Option JVal :=
  if native then getVal cfg "warmup-duration-native-image"
  else if hasKey cfg "warmup-duration" then getVal cfg "warmup-duration"
  else none

/-- External Wrk invocations performed by `runTester`: the warm-up run (output
captured separately and only logged) and the measured run (output stored in
`self.testerOutput`). -/
inductive WrkAction where
  | warmupRun (cmd : List String)
  | measuredRun (cmd : List String)
deriving DecidableEq, Repr

/-- `BaseWrkBenchmarkSuite.runTester`: pick the distro from the OS (abort on
anything but linux/darwin), build the Wrk flags via `setupWrkCmd`, run a
warm-up invocation when the selected warm-up duration is truthy, prepend
`--duration` when configured, then perform the measured run. -/
def runTester (scriptPath wrkDirectory osName : String) (native : Bool)
    (cfg : Config) : Except WrkErr (List WrkAction) :=
  match (if osName = "linux" then some "linux"
    else if osName = "darwin" then some "macos" else none) with
  | none =>
    Except.error (WrkErr.abort (osName ++ " not supported in BaseWrkBenchmarkSuite."))
  | some distro =>
    let wrkPath := wrkDirectory ++ "/wrk-" ++ distro
    match setupWrkCmd scriptPath cfg [] with
    | Except.error e => Except.error e
    | Except.ok wrkFlags =>
      let warmupActs :=
        match warmupDurationOf native cfg with
        | some d =>
          if pyTruthy d then
            [WrkAction.warmupRun ([wrkPath] ++ ["--duration", pyStr d] ++ wrkFlags)]
          else []
        | none => []
      let wrkFlags :=
        match getVal cfg "duration" with
        | some d => ["--duration", pyStr d] ++ wrkFlags
        | none => wrkFlags
      Except.ok (warmupActs ++ [WrkAction.measuredRun ([wrkPath] ++ wrkFlags)])

/-- Number of warm-up invocations in a trace. -/
def countWarmups (acts : List WrkAction) : Nat :=
  acts.countP (fun a =>
    match a with
    | WrkAction.warmupRun _ => true
    | WrkAction.measuredRun _ => false)

end BaseWrkBenchmarkSuite

namespace BaseWrk2BenchmarkSuite

/-- `BaseWrk2BenchmarkSuite.setupWrkCmd(config)`: start from `["--latency"]`,
require `rate` (abort when absent), then delegate to the Wrk base
`setupWrkCmd`. -/
def setupWrkCmd (scriptPath : String) (cfg : Config) :
    Except WrkErr (List String) :=
  match getVal cfg "rate" with
  | some r =>
    BaseWrkBenchmarkSuite.setupWrkCmd scriptPath cfg
      (["--latency"] ++ ["--rate", pyStr r])
  | none => Except.error (WrkErr.abort "rate not specified in Wrk2 configuration.")

end BaseWrk2BenchmarkSuite

/-- Collected metric record: the fields relevant to trimming and averaging. -/
structure MetricRec where
  name : String
  value : ℚ
deriving DecidableEq, Repr

namespace BaseJMeterBenchmarkSuite

/-- `BaseJMeterBenchmarkSuite.tailDatapointsToSkip(results)`: the Python
`int(len(results) * .10)`, embedded as natural-number division by 10 (the
float product truncates to the same value for every realistic list length). -/
def tailDatapointsToSkip (results : List MetricRec) : Nat :=
  results.length / 10

/-- Modelled from the spec: `addAverageAcrossLatestResults` is defined in
`mx_benchmark` (mx's benchmark module), which is not under src/; per the spec
it "computes a trailing average over the remainder" — one record carrying the
average of the collected values, appended under the given metric name. -/
def averageRecord (results : List MetricRec) (name : String) : MetricRec :=
  { name := name
    value := (results.map MetricRec.value).sum / (results.length : ℚ) }

/-- Modelled from the spec: the trailing average is appended to the result
list (the source mutates `results` in place and then returns it). -/
def addAverageAcrossLatestResults (results : List MetricRec) (name : String) :
    List MetricRec :=
  results ++ [averageRecord results name]

/-- `BaseJMeterBenchmarkSuite.run`: drop the tail 10% of the collected records
(`results[:len(results) - self.tailDatapointsToSkip(results)]`), then append
the trailing throughput average and return. -/
def run (collected : List MetricRec) : List MetricRec :=
  let results := collected.take (collected.length - tailDatapointsToSkip collected)
  addAverageAcrossLatestResults results "throughput"

end BaseJMeterBenchmarkSuite

end MxSdkBenchmark

namespace MxSdkBenchmark

/-- Unfolding lemma: a `waitForPort` call with timeout 0 runs exactly one
iteration of the loop. -/
theorem waitForPort_zero (table : Nat → List Proc) (port : Nat) :
    waitForPort table port 0 =
      match scanForPort (table 0) port with
      | some p => ⟨some p, 0, 1⟩
      | none => ⟨none, 1, 1⟩ := by
  unfold waitForPort waitForPortLoop
  cases scanForPort (table 0) port <;> simp [waitForPortLoop]

/-- C1: `terminateApplication` calls the port discovery with a zero timeout;
when a process bound to the port is found by that single scan it sends exactly
one SIGTERM (no wait-for-exit action) and returns success, otherwise it sends
nothing and returns failure; and whenever termination reports failure after
the tester run, `runTesterInBackground` aborts with the termination-failure
message. -/
theorem terminateApplication_spec (tableEnd : List Proc) (port : Nat) :
    ((terminateApplication tableEnd port).1 =
      (waitForPort (fun _ => tableEnd) port 0).result.isSome) ∧
    (∀ p, scanForPort tableEnd port = some p →
      terminateApplication tableEnd port =
        (true, [TermAction.sendSignal p.pid SIGTERM], 0)) ∧
    (scanForPort tableEnd port = none →
      terminateApplication tableEnd port = (false, [], 1)) ∧
    (∀ tableStart, (waitForPort tableStart port 10).result.isSome = true →
      (terminateApplication tableEnd port).1 = false →
      runTesterInBackground tableStart tableEnd port =
        (BgOutcome.aborted terminationFailureMsg, [])) := by
  have hw := waitForPort_zero (fun _ => tableEnd) port
  refine ⟨?_, ?_, ?_, ?_⟩
  · unfold terminateApplication
    rw [hw]
    cases scanForPort tableEnd port <;> simp
  · intro p hp
    unfold terminateApplication
    rw [hw, hp]
  · intro hp
    unfold terminateApplication
    rw [hw, hp]
  · intro tableStart hstart hfail
    unfold runTesterInBackground
    rw [if_pos hstart]
    rcases ht : terminateApplication tableEnd port with ⟨b, acts, s⟩
    rw [ht] at hfail
    simp at hfail
    subst hfail
    rfl

/-- Witness for `terminateApplication_spec` at concrete process tables. -/
theorem terminateApplication_spec_witness :
    terminateApplication [⟨7, some [8080]⟩] 8080 =
      (true, [TermAction.sendSignal 7 SIGTERM], 0) ∧
    terminateApplication [] 8080 = (false, [], 1) ∧
    runTesterInBackground (fun _ => [⟨7, some [8080]⟩]) [] 8080 =
      (BgOutcome.aborted terminationFailureMsg, []) :=
  ⟨(terminateApplication_spec [⟨7, some [8080]⟩] 8080).2.1 ⟨7, some [8080]⟩ (by decide),
   (terminateApplication_spec [] 8080).2.2.1 (by decide),
   (terminateApplication_spec [] 8080).2.2.2 (fun _ => [⟨7, some [8080]⟩])
     (by decide) (by decide)⟩

/-- C2 counterexample: with timeout 0 and no process bound to the port,
`waitForPort` sleeps one second before returning NotFound, so the return is
not delay-free as the claim states. -/
theorem waitForPort_zero_sleep_counterexample :
    waitForPort (fun _ => []) 8080 0 = ⟨none, 1, 1⟩ ∧
    (waitForPort (fun _ => []) 8080 0).slept ≠ 0 := by
  refine ⟨by decide, by decide⟩

/-- C2 (amended): `waitForPort` with timeout 0 performs exactly one scan of
the process table; when a process is bound to the port it returns the handle
immediately (zero sleep), and when none is it sleeps one second once and then
returns NotFound. -/
theorem waitForPort_zero_spec (table : Nat → List Proc) (port : Nat) :
    (waitForPort table port 0).scans = 1 ∧
    (∀ p, scanForPort (table 0) port = some p →
      waitForPort table port 0 = ⟨some p, 0, 1⟩) ∧
    (scanForPort (table 0) port = none →
      waitForPort table port 0 = ⟨none, 1, 1⟩) := by
  have hw := waitForPort_zero table port
  refine ⟨?_, ?_, ?_⟩
  · rw [hw]
    cases scanForPort (table 0) port <;> simp
  · intro p hp
    rw [hw, hp]
  · intro hp
    rw [hw, hp]

/-- Witness for `waitForPort_zero_spec` at a concrete bound and unbound port. -/
theorem waitForPort_zero_spec_witness :
    waitForPort (fun _ => [⟨42, some [8080]⟩]) 8080 0 =
      ⟨some ⟨42, some [8080]⟩, 0, 1⟩ ∧
    waitForPort (fun _ => [⟨42, some [80]⟩]) 8080 0 = ⟨none, 1, 1⟩ :=
  ⟨(waitForPort_zero_spec (fun _ => [⟨42, some [8080]⟩]) 8080).2.1
      ⟨42, some [8080]⟩ (by decide),
   (waitForPort_zero_spec (fun _ => [⟨42, some [80]⟩]) 8080).2.2 (by decide)⟩

/-- Helper: `splitOnChar` never returns the empty list. -/
theorem splitOnChar_ne_nil (c : Char) (s : List Char) : splitOnChar c s ≠ [] := by
  induction s with
  | nil => simp [splitOnChar]
  | cons x xs ih =>
    simp only [splitOnChar]
    split
    · simp
    · cases h : splitOnChar c xs with
      | nil => simp
      | cons y ys => simp

/-- Helper: the split has at least two pieces exactly when the separator
occurs in the string. -/
theorem splitOnChar_two_le_length_iff (c : Char) (s : List Char) :
    2 ≤ (splitOnChar c s).length ↔ c ∈ s := by
  induction s with
  | nil => simp [splitOnChar]
  | cons x xs ih =>
    simp only [splitOnChar]
    by_cases hx : x = c
    · rw [if_pos hx]
      have hpos : 0 < (splitOnChar c xs).length :=
        List.length_pos.mpr (splitOnChar_ne_nil c xs)
      simp only [List.length_cons, List.mem_cons]
      constructor
      · intro _; left; exact hx.symm
      · intro _; omega
    · rw [if_neg hx]
      cases h : splitOnChar c xs with
      | nil => exact absurd h (splitOnChar_ne_nil c xs)
      | cons y ys =>
        rw [h] at ih
        simp only [List.length_cons] at ih ⊢
        simp only [List.mem_cons]
        constructor
        · intro h2; right; exact ih.mp h2
        · intro h2
          rcases h2 with h2 | h2
          · exact absurd h2.symm hx
          · exact ih.mpr h2

/-- Helper: the first piece of the split is a separator-free prefix of the
string, and what follows it is either empty or starts with the separator. -/
theorem splitOnChar_head_spec (c : Char) (s : List Char) :
    ∃ t, s = (splitOnChar c s).headD [] ++ t ∧
      c ∉ (splitOnChar c s).headD [] ∧ (t = [] ∨ ∃ u, t = c :: u) := by
  induction s with
  | nil => exact ⟨[], by simp [splitOnChar], by simp [splitOnChar], Or.inl rfl⟩
  | cons x xs ih =>
    simp only [splitOnChar]
    by_cases hx : x = c
    · rw [if_pos hx]
      exact ⟨x :: xs, by simp, by simp, Or.inr ⟨xs, by rw [hx]⟩⟩
    · rw [if_neg hx]
      cases h : splitOnChar c xs with
      | nil => exact absurd h (splitOnChar_ne_nil c xs)
      | cons y ys =>
        rw [h] at ih
        obtain ⟨t, hts, hmem, hshape⟩ := ih
        simp only [List.headD_cons] at hts hmem
        refine ⟨t, ?_, ?_, hshape⟩
        · simp only [List.headD_cons, List.cons_append]
          rw [← hts]
        · simp only [List.headD_cons, List.mem_cons]
          rintro (hc | hc)
          · exact hx hc.symm
          · exact hmem hc

/-- C8: computing the microservice name from a suite name aborts exactly when
the name does not decompose as `microserviceName-testerName` (it contains no
hyphen); otherwise the returned microservice name is the hyphen-free segment
before the first hyphen of the suite name. -/
theorem benchMicroserviceName_spec (suiteName : String) :
    (benchMicroserviceName suiteName =
        Except.error ("Invalid benchmark suite name: " ++ suiteName) ↔
      '-' ∉ suiteName.toList) ∧
    (∀ m, benchMicroserviceName suiteName = Except.ok m →
      '-' ∉ m.toList ∧ ∃ t, suiteName.toList = m.toList ++ '-' :: t) := by
  unfold benchMicroserviceName
  by_cases h : (splitOnChar '-' suiteName.toList).length < 2
  · rw [if_pos h]
    constructor
    · have h2 : ¬ 2 ≤ (splitOnChar '-' suiteName.toList).length := by omega
      have hmem := (splitOnChar_two_le_length_iff '-' suiteName.toList).not.mp h2
      simp only [true_iff]
      exact hmem
    · intro m hm
      exact absurd hm (by simp)
  · rw [if_neg h]
    have hmem : '-' ∈ suiteName.toList :=
      (splitOnChar_two_le_length_iff '-' suiteName.toList).mp (by omega)
    constructor
    · simp only [iff_true_intro hmem, iff_true]
      simp
    · intro m hm
      have hm' : m = String.mk ((splitOnChar '-' suiteName.toList).headD []) :=
        ((Except.ok.injEq _ _).mp hm).symm
      obtain ⟨t, hts, hmemh, hshape⟩ := splitOnChar_head_spec '-' suiteName.toList
      have hml : m.toList = (splitOnChar '-' suiteName.toList).headD [] := by
        rw [hm']
        rfl
      rcases hshape with rfl | ⟨u, rfl⟩
      · rw [List.append_nil] at hts
        rw [← hts] at hmemh
        exact absurd hmem hmemh
      · exact ⟨by rw [hml]; exact hmemh, u, by rw [hml]; exact hts⟩

/-- Witness for `benchMicroserviceName_spec` at the suite name
"shopcart-wrk". -/
theorem benchMicroserviceName_spec_witness :
    '-' ∉ "shopcart".toList ∧
    ∃ t, "shopcart-wrk".toList = "shopcart".toList ++ '-' :: t :=
  (benchMicroserviceName_spec "shopcart-wrk").2 "shopcart" rfl

/-- C7 counterexample: for the stage "agent" with a server command that does
not contain the microservice name, `run_stage` starts no probe thread, so the
prober is not started "exactly when the stage name contains agent". -/
theorem run_stage_agent_probe_counterexample :
    pyIn "agent" "agent" = true ∧
    run_stage "shopcart-wrk" "agent" ["java", "-jar", "app.jar"] =
      Except.ok [StageAction.startTester,
        StageAction.runCommand ["java", "-jar", "app.jar"]] ∧
    StageAction.startProbe ∉
      ([StageAction.startTester,
        StageAction.runCommand ["java", "-jar", "app.jar"]] : List StageAction) := by
  refine ⟨by decide, rfl, by decide⟩

/-- C7 (amended): `run_stage` dispatches a stage as a build stage (plain
command invocation, no tester or prober) exactly when the stage name contains
"image"; otherwise it starts the tester thread and runs the command
synchronously, and it starts the readiness prober exactly when the stage name
contains "agent" and the microservice name occurs in the concatenation of the
command strings (an invalid suite name aborts instead). -/
theorem run_stage_spec (suiteName stage : String) (cmd : List String) :
    (pyIn "image" stage = true →
      run_stage suiteName stage cmd = Except.ok [StageAction.runCommand cmd]) ∧
    (pyIn "image" stage = false → pyIn "agent" stage = false →
      run_stage suiteName stage cmd =
        Except.ok [StageAction.startTester, StageAction.runCommand cmd]) ∧
    (∀ name, pyIn "image" stage = false → pyIn "agent" stage = true →
      benchMicroserviceName suiteName = Except.ok name →
      run_stage suiteName stage cmd =
        Except.ok ([StageAction.startTester]
          ++ (if pyIn name (String.join cmd) then [StageAction.startProbe] else [])
          ++ [StageAction.runCommand cmd])) ∧
    (∀ e, pyIn "image" stage = false → pyIn "agent" stage = true →
      benchMicroserviceName suiteName = Except.error e →
      run_stage suiteName stage cmd = Except.error e) := by
  refine ⟨?_, ?_, ?_, ?_⟩
  · intro h
    simp [run_stage, h]
  · intro h1 h2
    simp [run_stage, h1, h2]
  · intro name h1 h2 h3
    simp only [run_stage, h1, h2, h3, Bool.false_eq_true, if_false, if_true]
    cases hpy : pyIn name (String.join cmd) <;> simp [hpy]
  · intro e h1 h2 h3
    simp [run_stage, h1, h2, h3]

/-- Witness for `run_stage_spec`: a build stage, a plain run stage, and an
agent stage whose command contains the microservice name. -/
theorem run_stage_spec_witness :
    run_stage "shopcart-wrk" "image" ["app"] =
      Except.ok [StageAction.runCommand ["app"]] ∧
    run_stage "shopcart-wrk" "run" ["app"] =
      Except.ok [StageAction.startTester, StageAction.runCommand ["app"]] ∧
    run_stage "shopcart-wrk" "agent" ["shopcart"] =
      Except.ok ([StageAction.startTester]
        ++ (if pyIn "shopcart" (String.join ["shopcart"]) then [StageAction.startProbe] else [])
        ++ [StageAction.runCommand ["shopcart"]]) :=
  ⟨(run_stage_spec "shopcart-wrk" "image" ["app"]).1 (by decide),
   (run_stage_spec "shopcart-wrk" "run" ["app"]).2.1 (by decide) (by decide),
   (run_stage_spec "shopcart-wrk" "agent" ["shopcart"]).2.2.1 "shopcart"
     (by decide) (by decide) rfl⟩

/-- Helper: when the first `n` attempts starting at `k` all raise `IOError`,
the probe loop exhausts its budget, sleeping 10 ms per attempt. -/
theorem probeLoop_all_ioError (resp : Nat → ProbeResp) (elapsedMs : Nat → Nat) :
    ∀ n k s, (∀ j, j < n → resp (k + j) = ProbeResp.ioError) →
      probeLoop resp elapsedMs n k s = ProbeOutcome.timeout (s + 10 * n) := by
  intro n
  induction n with
  | zero => intro k s _; simp [probeLoop]
  | succ n ih =>
    intro k s h
    have h0 : resp k = ProbeResp.ioError := by
      have := h 0 (by omega)
      simpa using this
    rw [probeLoop, h0]
    have hrec := ih (k + 1) (s + 10) (fun j hj => by
      have := h (j + 1) (by omega)
      rwa [show k + (j + 1) = k + 1 + j by omega] at this)
    rw [hrec]
    have : s + 10 + 10 * n = s + 10 * (n + 1) := by ring
    rw [this]

/-- Helper: when attempt `k + i` is the first one that returns status 200 and
all earlier attempts raise `IOError`, the probe loop succeeds with the
formatted annotation, having slept 10 ms per failed attempt. -/
theorem probeLoop_first_success (resp : Nat → ProbeResp) (elapsedMs : Nat → Nat) :
    ∀ n i k s, i < n → (∀ j, j < i → resp (k + j) = ProbeResp.ioError) →
      resp (k + i) = ProbeResp.code 200 →
      probeLoop resp elapsedMs n k s =
        ProbeOutcome.success
          ("First response received in " ++ toString (elapsedMs (k + i)) ++ " ms")
          (s + 10 * i) := by
  intro n
  induction n with
  | zero => intro i k s hi; omega
  | succ n ih =>
    intro i k s hi hpre h200
    cases i with
    | zero =>
      have h0 : resp k = ProbeResp.code 200 := by simpa using h200
      rw [probeLoop, h0]
      simp
    | succ i =>
      have h0 : resp k = ProbeResp.ioError := by
        have := hpre 0 (by omega)
        simpa using this
      rw [probeLoop, h0]
      have hrec := ih i (k + 1) (s + 10) (by omega)
        (fun j hj => by
          have := hpre (j + 1) (by omega)
          rwa [show k + (j + 1) = k + 1 + j by omega] at this)
        (by rwa [show k + (i + 1) = k + 1 + i by omega] at h200)
      rw [hrec]
      rw [show k + 1 + i = k + (i + 1) by omega]
      have : s + 10 + 10 * i = s + 10 * (i + 1) := by ring
      rw [this]

/-- C3: the readiness prober polls with a budget of exactly 6000 attempts; if
every attempt raises `IOError` it sleeps 10 ms per attempt (60000 ms ≈ 60 s in
total) and aborts fatally; on the first response with status 200 it succeeds
with the annotation "First response received in (elapsed) ms" built from the
clock at that attempt; a successful probe publishes the annotation into the
suite's `timeToFirstResponseOutput` attribute while returning `cmd` unchanged
to the pipeline, and an exhausted probe aborts. -/
theorem timeToFirstResponse_spec :
    probeAttempts = 6000 ∧
    (∀ resp elapsedMs, (∀ k, k < 6000 → resp k = ProbeResp.ioError) →
      timeToFirstResponseThread resp elapsedMs = ProbeOutcome.timeout 60000) ∧
    (∀ resp elapsedMs k, k < 6000 →
      (∀ j, j < k → resp j = ProbeResp.ioError) →
      resp k = ProbeResp.code 200 →
      timeToFirstResponseThread resp elapsedMs =
        ProbeOutcome.success
          ("First response received in " ++ toString (elapsedMs k) ++ " ms")
          (10 * k)) ∧
    (∀ microName cmd st resp elapsedMs url ann slept,
      pyIn microName (String.join cmd) = true →
      timeToFirstResponseThread resp elapsedMs = ProbeOutcome.success ann slept →
      timeToFirstResponse microName cmd st resp elapsedMs url =
        Except.ok (cmd, { st with timeToFirstResponseOutput := ann })) ∧
    (∀ microName cmd st resp elapsedMs url slept,
      pyIn microName (String.join cmd) = true →
      timeToFirstResponseThread resp elapsedMs = ProbeOutcome.timeout slept →
      timeToFirstResponse microName cmd st resp elapsedMs url =
        Except.error
          ("Failed measure time to first response. Service not reachable at "
            ++ url)) := by
  have hattempts : probeAttempts = 6000 := by decide
  refine ⟨hattempts, ?_, ?_, ?_, ?_⟩
  · intro resp elapsedMs h
    unfold timeToFirstResponseThread
    rw [hattempts]
    have := probeLoop_all_ioError resp elapsedMs 6000 0 0
      (fun j hj => by simpa using h j hj)
    rw [this]
  · intro resp elapsedMs k hk hpre h200
    unfold timeToFirstResponseThread
    rw [hattempts]
    have := probeLoop_first_success resp elapsedMs 6000 k 0 0 hk
      (fun j hj => by simpa using hpre j hj) (by simpa using h200)
    rw [this]
    simp
  · intro microName cmd st resp elapsedMs url ann slept hpy hthread
    unfold timeToFirstResponse
    rw [if_pos hpy, hthread]
  · intro microName cmd st resp elapsedMs url slept hpy hthread
    unfold timeToFirstResponse
    rw [if_pos hpy, hthread]

/-- Witness for `timeToFirstResponse_spec`: a service that is never reachable
times out after 60000 ms of sleeping; a service answering 200 at the first
attempt succeeds with no sleep; the annotation is published into the suite
state while the command is returned unchanged. -/
theorem timeToFirstResponse_spec_witness :
    timeToFirstResponseThread (fun _ => ProbeResp.ioError) (fun _ => 123) =
      ProbeOutcome.timeout 60000 ∧
    timeToFirstResponseThread (fun _ => ProbeResp.code 200) (fun _ => 123) =
      ProbeOutcome.success
        ("First response received in " ++ toString 123 ++ " ms") (10 * 0) ∧
    timeToFirstResponse "shopcart" ["shopcart"] initSuiteState
      (fun _ => ProbeResp.code 200) (fun _ => 123) "http://localhost:8080" =
      Except.ok (["shopcart"],
        { initSuiteState with
          timeToFirstResponseOutput :=
            "First response received in " ++ toString 123 ++ " ms" }) := by
  have h1 := timeToFirstResponse_spec.2.1 (fun _ => ProbeResp.ioError)
    (fun _ => 123) (fun k _ => rfl)
  have h2 := timeToFirstResponse_spec.2.2.1 (fun _ => ProbeResp.code 200)
    (fun _ => 123) 0 (by omega) (fun j hj => absurd hj (by omega)) rfl
  have h3 := timeToFirstResponse_spec.2.2.2.1 "shopcart" ["shopcart"]
    initSuiteState (fun _ => ProbeResp.code 200) (fun _ => 123)
    "http://localhost:8080"
    ("First response received in " ++ toString 123 ++ " ms") (10 * 0)
    (by decide) h2
  exact ⟨h1, h2, h3⟩

/-- C6: when the tester has run (so `testerOutput` holds a capture), the final
textual result is the tester's captured output, then the first-response
annotation (the attribute that stays the empty string unless the agent probe
ran), then the application's own output, in that fixed order. -/
theorem runAndReturnStdOut_concat :
    (∀ st c retCode appOutput,
      st.testerOutput = TesterOutputField.capture c →
      runAndReturnStdOut st retCode appOutput =
        Except.ok (retCode, c ++ st.timeToFirstResponseOutput ++ appOutput)) ∧
    initSuiteState.timeToFirstResponseOutput = "" := by
  constructor
  · intro st c retCode appOutput h
    unfold runAndReturnStdOut
    rw [h]
    rfl
  · rfl

/-- Witness for `runAndReturnStdOut_concat` at a concrete suite state. -/
theorem runAndReturnStdOut_concat_witness :
    runAndReturnStdOut
      { testerOutput := TesterOutputField.capture "tester out\n"
        timeToFirstResponseOutput := "First response received in 123 ms" }
      0 "app out\n" =
      Except.ok (0, "tester out\n" ++ "First response received in 123 ms"
        ++ "app out\n") :=
  runAndReturnStdOut_concat.1 _ "tester out\n" 0 "app out\n" rfl

/-- Helper: stages whose names all contain "image" leave the suite attributes
unchanged (no tester runs). -/
theorem runStagesState_build (st : SuiteState) :
    ∀ stages : List (String × String),
      (∀ p ∈ stages, pyIn "image" p.1 = true) →
      runStagesState st stages = st := by
  intro stages
  induction stages generalizing st with
  | nil => intro _; rfl
  | cons p rest ih =>
    intro h
    have hp : pyIn "image" p.1 = true := h p (by simp)
    rcases p with ⟨stage, data⟩
    rw [runStagesState, stageStateEffect, if_pos hp]
    exact ih st (fun q hq => h q (by simp [hq]))

/-- C10: `runAndReturnStdOut` reads `testerOutput.underlying.data`, but
`__init__` sets `testerOutput` to the plain string "", which is replaced by a
capture object only inside `runTester`; hence on the initial state — and after
any stage list consisting only of build stages — the attribute access raises
`AttributeError` instead of yielding empty tester output, while after a tester
run the assembly succeeds. -/
theorem runAndReturnStdOut_requires_tester :
    initSuiteState.testerOutput = TesterOutputField.initStr "" ∧
    (∀ retCode appOutput,
      runAndReturnStdOut initSuiteState retCode appOutput =
        Except.error PyError.attributeError) ∧
    (∀ stages retCode appOutput,
      (∀ p ∈ stages, pyIn "image" p.1 = true) →
      runAndReturnStdOut (runStagesState initSuiteState stages) retCode appOutput =
        Except.error PyError.attributeError) ∧
    (∀ st captured retCode appOutput,
      runAndReturnStdOut (runTesterSetOutput st captured) retCode appOutput =
        Except.ok (retCode,
          captured ++ st.timeToFirstResponseOutput ++ appOutput)) := by
  refine ⟨rfl, fun _ _ => rfl, ?_, fun _ _ _ _ => rfl⟩
  intro stages retCode appOutput h
  rw [runStagesState_build initSuiteState stages h]
  rfl

/-- Witness for `runAndReturnStdOut_requires_tester` with a build-only stage
list. -/
theorem runAndReturnStdOut_requires_tester_witness :
    runAndReturnStdOut
      (runStagesState initSuiteState
        [("instrument-image", "x"), ("image", "y")]) 0 "app out" =
      Except.error PyError.attributeError :=
  runAndReturnStdOut_requires_tester.2.2.1
    [("instrument-image", "x"), ("image", "y")] 0 "app out" (by decide)

/-- Helper: key membership agrees with lookup success. -/
theorem hasKey_eq_isSome (cfg : Config) (k : String) :
    hasKey cfg k = (getVal cfg k).isSome := by
  induction cfg with
  | nil => rfl
  | cons p rest ih =>
    unfold hasKey getVal at ih ⊢
    by_cases h : p.1 = k
    · simp [List.any_cons, List.find?_cons, h]
    · simp only [List.any_cons, List.find?_cons, h, decide_False,
        Bool.false_or, cond_false]
      exact ih

/-- Helper: an absent key looks up to `none`. -/
theorem getVal_eq_none_of_hasKey_false (cfg : Config) (k : String)
    (h : hasKey cfg k = false) : getVal cfg k = none := by
  rw [hasKey_eq_isSome] at h
  exact Option.not_isSome_iff_eq_none.mp (by simp [h])

/-- Helper: a present key looks up to some value. -/
theorem getVal_isSome_of_hasKey_true (cfg : Config) (k : String)
    (h : hasKey cfg k = true) : ∃ v, getVal cfg k = some v := by
  rw [hasKey_eq_isSome] at h
  exact Option.isSome_iff_exists.mp h

/-- Helper: with `target-url` present and `target-path` absent, the Wrk
command builder succeeds whatever else is missing. -/
theorem setupWrkCmd_ok (scriptPath : String) (cfg : Config) (cmd : List String)
    (h1 : hasKey cfg "target-url" = true)
    (h2 : hasKey cfg "target-path" = false) :
    ∃ r, BaseWrkBenchmarkSuite.setupWrkCmd scriptPath cfg cmd = Except.ok r := by
  obtain ⟨url, hurl⟩ := getVal_isSome_of_hasKey_true cfg "target-url" h1
  have hpath := getVal_eq_none_of_hasKey_false cfg "target-path" h2
  unfold BaseWrkBenchmarkSuite.setupWrkCmd
  rw [hurl, hpath]
  exact ⟨_, rfl⟩

/-- C4: building the Wrk tester command aborts with the configuration-error
message when `target-url` is missing; the Wrk2 (rate-controlled) builder
aborts with its configuration-error message when `rate` is missing; and with
those mandatory fields present, every other field (connections, threads,
script, duration, warmup-duration, target-path) may be absent without error. -/
theorem setupWrkCmd_config_errors :
    (∀ scriptPath cfg cmd, hasKey cfg "target-url" = false →
      BaseWrkBenchmarkSuite.setupWrkCmd scriptPath cfg cmd =
        Except.error (WrkErr.abort "target-url not specified in Wrk configuration.")) ∧
    (∀ scriptPath cfg, hasKey cfg "rate" = false →
      BaseWrk2BenchmarkSuite.setupWrkCmd scriptPath cfg =
        Except.error (WrkErr.abort "rate not specified in Wrk2 configuration.")) ∧
    (∀ scriptPath cfg cmd, hasKey cfg "target-url" = true →
      hasKey cfg "target-path" = false →
      ∃ r, BaseWrkBenchmarkSuite.setupWrkCmd scriptPath cfg cmd = Except.ok r) ∧
    (∀ scriptPath cfg, hasKey cfg "rate" = true →
      hasKey cfg "target-url" = true → hasKey cfg "target-path" = false →
      ∃ r, BaseWrk2BenchmarkSuite.setupWrkCmd scriptPath cfg = Except.ok r) := by
  refine ⟨?_, ?_, ?_, ?_⟩
  · intro scriptPath cfg cmd h
    have hurl := getVal_eq_none_of_hasKey_false cfg "target-url" h
    unfold BaseWrkBenchmarkSuite.setupWrkCmd
    rw [hurl]
  · intro scriptPath cfg h
    have hrate := getVal_eq_none_of_hasKey_false cfg "rate" h
    unfold BaseWrk2BenchmarkSuite.setupWrkCmd
    rw [hrate]
  · intro scriptPath cfg cmd h1 h2
    exact setupWrkCmd_ok scriptPath cfg cmd h1 h2
  · intro scriptPath cfg hrate h1 h2
    obtain ⟨r, hr⟩ := getVal_isSome_of_hasKey_true cfg "rate" hrate
    unfold BaseWrk2BenchmarkSuite.setupWrkCmd
    rw [hr]
    exact setupWrkCmd_ok scriptPath cfg _ h1 h2

/-- Witness for `setupWrkCmd_config_errors` at concrete configurations. -/
theorem setupWrkCmd_config_errors_witness :
    BaseWrkBenchmarkSuite.setupWrkCmd "s" [] [] =
      Except.error (WrkErr.abort "target-url not specified in Wrk configuration.") ∧
    BaseWrk2BenchmarkSuite.setupWrkCmd "s" [("target-url", JVal.s "u")] =
      Except.error (WrkErr.abort "rate not specified in Wrk2 configuration.") ∧
    (∃ r, BaseWrkBenchmarkSuite.setupWrkCmd "s"
      [("target-url", JVal.s "u")] [] = Except.ok r) ∧
    (∃ r, BaseWrk2BenchmarkSuite.setupWrkCmd "s"
      [("rate", JVal.n 100), ("target-url", JVal.s "u")] = Except.ok r) :=
  ⟨setupWrkCmd_config_errors.1 "s" [] [] (by decide),
   setupWrkCmd_config_errors.2.1 "s" [("target-url", JVal.s "u")] (by decide),
   setupWrkCmd_config_errors.2.2.1 "s" [("target-url", JVal.s "u")] []
     (by decide) (by decide),
   setupWrkCmd_config_errors.2.2.2 "s" [("rate", JVal.n 100), ("target-url", JVal.s "u")]
     (by decide) (by decide) (by decide)⟩

/-- C9 counterexample: a configuration in which `warmup-duration` is
configured (with the falsy value 0) yields a tester trace with no warm-up
invocation, so "configured implies a warm-up runs" fails as stated. -/
theorem runTester_warmup_counterexample :
    hasKey [("target-url", JVal.s "http://localhost:8080"),
      ("warmup-duration", JVal.n 0)] "warmup-duration" = true ∧
    BaseWrkBenchmarkSuite.runTester "s" "w" "linux" false
      [("target-url", JVal.s "http://localhost:8080"),
        ("warmup-duration", JVal.n 0)] =
      Except.ok [BaseWrkBenchmarkSuite.WrkAction.measuredRun
        ["w/wrk-linux", "http://localhost:8080"]] ∧
    BaseWrkBenchmarkSuite.countWarmups
      [BaseWrkBenchmarkSuite.WrkAction.measuredRun
        ["w/wrk-linux", "http://localhost:8080"]] = 0 := by
  refine ⟨by decide, rfl, by decide⟩

/-- C9 (amended): `runTester` consults only `warmup-duration-native-image` in
native-image mode and only `warmup-duration` otherwise; when the consulted
value is present and truthy (non-empty string, non-zero number) exactly one
warm-up invocation with that duration precedes the measured run, and otherwise
— including a configured but falsy value — no warm-up invocation occurs. -/
theorem runTester_warmup_spec (scriptPath wrkDirectory : String) (native : Bool)
    (cfg : Config) (wrkFlags : List String)
    (hsetup : BaseWrkBenchmarkSuite.setupWrkCmd scriptPath cfg [] =
      Except.ok wrkFlags) :
    (∀ d, BaseWrkBenchmarkSuite.warmupDurationOf native cfg = some d →
      pyTruthy d = true →
      ∃ mcmd, BaseWrkBenchmarkSuite.runTester scriptPath wrkDirectory "linux"
          native cfg =
        Except.ok [BaseWrkBenchmarkSuite.WrkAction.warmupRun
            ([wrkDirectory ++ "/wrk-" ++ "linux"]
              ++ ["--duration", pyStr d] ++ wrkFlags),
          BaseWrkBenchmarkSuite.WrkAction.measuredRun mcmd]) ∧
    ((∀ d, BaseWrkBenchmarkSuite.warmupDurationOf native cfg = some d →
        pyTruthy d = false) →
      ∃ mcmd, BaseWrkBenchmarkSuite.runTester scriptPath wrkDirectory "linux"
          native cfg =
        Except.ok [BaseWrkBenchmarkSuite.WrkAction.measuredRun mcmd]) := by
  have heq : BaseWrkBenchmarkSuite.runTester scriptPath wrkDirectory "linux"
      native cfg =
    Except.ok ((match BaseWrkBenchmarkSuite.warmupDurationOf native cfg with
      | some d =>
        if pyTruthy d then
          [BaseWrkBenchmarkSuite.WrkAction.warmupRun
            ([wrkDirectory ++ "/wrk-" ++ "linux"]
              ++ ["--duration", pyStr d] ++ wrkFlags)]
        else []
      | none => []) ++
      [BaseWrkBenchmarkSuite.WrkAction.measuredRun
        ([wrkDirectory ++ "/wrk-" ++ "linux"] ++
          (match getVal cfg "duration" with
            | some d => ["--duration", pyStr d] ++ wrkFlags
            | none => wrkFlags))]) := by
    unfold BaseWrkBenchmarkSuite.runTester
    rw [hsetup]
    rfl
  constructor
  · intro d hd htruthy
    rw [heq, hd]
    simp only [htruthy, if_true]
    refine ⟨[wrkDirectory ++ "/wrk-" ++ "linux"] ++
      (match getVal cfg "duration" with
        | some d2 => ["--duration", pyStr d2] ++ wrkFlags
        | none => wrkFlags), ?_⟩
    simp
  · intro h
    rw [heq]
    have hgoal : ∀ pre : List BaseWrkBenchmarkSuite.WrkAction, pre = [] →
        ∃ mcmd, (Except.ok (pre ++
          [BaseWrkBenchmarkSuite.WrkAction.measuredRun
            ([wrkDirectory ++ "/wrk-" ++ "linux"] ++
              (match getVal cfg "duration" with
                | some d2 => ["--duration", pyStr d2] ++ wrkFlags
                | none => wrkFlags))]) :
            Except WrkErr (List BaseWrkBenchmarkSuite.WrkAction)) =
          Except.ok [BaseWrkBenchmarkSuite.WrkAction.measuredRun mcmd] := by
      intro pre hpre
      subst hpre
      exact ⟨_, rfl⟩
    cases hw : BaseWrkBenchmarkSuite.warmupDurationOf native cfg with
    | none => exact hgoal [] rfl
    | some d =>
      have hf := h d hw
      simp only [hf, Bool.false_eq_true, if_false]
      exact hgoal [] rfl

/-- Witness for `runTester_warmup_spec`: a truthy warm-up duration produces a
warm-up invocation with that duration before the measured run. -/
theorem runTester_warmup_spec_witness :
    ∃ mcmd, BaseWrkBenchmarkSuite.runTester "s" "w" "linux" false
        [("target-url", JVal.s "u"), ("warmup-duration", JVal.s "30s")] =
      Except.ok [BaseWrkBenchmarkSuite.WrkAction.warmupRun
          (["w" ++ "/wrk-" ++ "linux"]
            ++ ["--duration", pyStr (JVal.s "30s")] ++ ["u"]),
        BaseWrkBenchmarkSuite.WrkAction.measuredRun mcmd] :=
  (runTester_warmup_spec "s" "w" false
      [("target-url", JVal.s "u"), ("warmup-duration", JVal.s "30s")] ["u"] rfl).1
    (JVal.s "30s") rfl (by decide)

/-- C5: a JMeter-style run returns the first `n - n / 10` collected records
(the tail 10% is discarded) with the trailing throughput average appended
afterwards; in particular 100 collected samples are trimmed to exactly 90
records before the average is appended. -/
theorem jmeter_run_trim_spec (collected : List MetricRec) :
    BaseJMeterBenchmarkSuite.run collected =
      collected.take (collected.length - collected.length / 10)
        ++ [BaseJMeterBenchmarkSuite.averageRecord
          (collected.take (collected.length - collected.length / 10))
          "throughput"] ∧
    (BaseJMeterBenchmarkSuite.run collected).length =
      collected.length - collected.length / 10 + 1 ∧
    (collected.length = 100 →
      (collected.take (collected.length -
        BaseJMeterBenchmarkSuite.tailDatapointsToSkip collected)).length = 90 ∧
      (BaseJMeterBenchmarkSuite.run collected).length = 91) := by
  have hlen : (collected.take (collected.length - collected.length / 10)).length
      = collected.length - collected.length / 10 := by
    rw [List.length_take]
    omega
  have hrun : (BaseJMeterBenchmarkSuite.run collected).length =
      collected.length - collected.length / 10 + 1 := by
    unfold BaseJMeterBenchmarkSuite.run
      BaseJMeterBenchmarkSuite.addAverageAcrossLatestResults
      BaseJMeterBenchmarkSuite.tailDatapointsToSkip
    rw [List.length_append, hlen]
    rfl
  refine ⟨rfl, hrun, ?_⟩
  intro h100
  constructor
  · unfold BaseJMeterBenchmarkSuite.tailDatapointsToSkip
    rw [List.length_take, h100]
    decide
  · rw [hrun, h100]

/-- Witness for `jmeter_run_trim_spec` on 100 collected records. -/
theorem jmeter_run_trim_spec_witness :
    ((List.replicate 100 (MetricRec.mk "warmup" 1)).take
      ((List.replicate 100 (MetricRec.mk "warmup" 1)).length -
        BaseJMeterBenchmarkSuite.tailDatapointsToSkip
          (List.replicate 100 (MetricRec.mk "warmup" 1)))).length = 90 ∧
    (BaseJMeterBenchmarkSuite.run
      (List.replicate 100 (MetricRec.mk "warmup" 1))).length = 91 :=
  (jmeter_run_trim_spec (List.replicate 100 (MetricRec.mk "warmup" 1))).2.2
    (by simp)

end MxSdkBenchmark
